import Mathlib

/-!
Shallow embedding of the `nebulous` terminal dashboard (src/src/main.rs):
the value model (`ItemValue`, conversion from the remote `AttributeValue`
encoding), the table containers (`KV`, `TableRow`, `NebTable`), the
application state (`App`) with its navigation and selection operations,
the key-event dispatch of the main loop, and the `load_table` fetch task.

Machine integers: the cursors are Rust `usize` values held in
`ListState`/`TableState`; we model them as `Nat`.  The one place where the
source performs `usize` subtraction that can underflow (`len() - 1` with
`len() = 0` in `move_up`) is modelled by an `Option` result whose `none`
stands for the Rust panic (debug profile) / wrap-around (release profile).
Rust `panic!` in the attribute-value conversion is likewise modelled by
`Option`.
-/

set_option autoImplicit false

namespace Nebulous

/-- Rust i64 bounds: `parse::<i64>()` rejects values outside them. -/
def i64Min : Int := -(2 ^ 63)

def i64Max : Int := 2 ^ 63 - 1

/-- Model of Rust `str::parse::<i64>()`: an optional sign followed by at
least one ASCII digit, the value within the `i64` range; anything else is
a parse error (`none`). -/
def parseI64 (s : String) : Option Int :=
  let cs := s.toList
  let signDigits : Bool × List Char :=
    match cs with
    | '-' :: rest => (true, rest)
    | '+' :: rest => (false, rest)
    | _ => (false, cs)
  let neg := signDigits.1
  let digits := signDigits.2
  if digits.isEmpty then none
  else if digits.all Char.isDigit then
    let magnitude : Nat := digits.foldl (fun acc c => acc * 10 + (c.toNat - '0'.toNat)) 0
    let value : Int := if neg then -(magnitude : Int) else (magnitude : Int)
    if i64Min ≤ value ∧ value ≤ i64Max then some value else none
  else none

/-- The remote store's self-describing attribute encoding
(`aws_sdk_dynamodb::model::AttributeValue`).  `Bool`, `N`, `S`, `Null`,
`L` and `M` are the variants the source handles; `B`, `Ss`, `Ns` and `Bs`
stand for the remaining variants that fall into the source's
`_ => panic!(..)` arm.  The SDK's `M` is a `HashMap`; we model it as an
association list. -/
inductive AttributeValue where
  | Bool (b : Bool)
  | N (n : String)
  | S (s : String)
  | Null (isNull : Bool)
  | L (l : List AttributeValue)
  | M (m : List (String × AttributeValue))
  | B (bytes : List Nat)
  | Ss (strings : List String)
  | Ns (numbers : List String)
  | Bs (byteSets : List (List Nat))

/-- The local value model (`enum ItemValue`). -/
inductive ItemValue where
  | Null
  | String (s : String)
  | Number (n : Int)
  | Bool (b : Bool)
  | Map (m : List (String × ItemValue))
  | List (l : List ItemValue)

/-- `impl fmt::Display for ItemValue`: Rust's `{}` for `i64` renders
base-10 digits with a leading `-` for negatives, and for `bool` renders
`true`/`false`. -/
def displayItemValue : ItemValue → String
  | ItemValue.Null => "null"
  | ItemValue.String s => s
  | ItemValue.Number n => toString n
  | ItemValue.Bool b => if b then "true" else "false"
  | ItemValue.Map _ => "Map..."
  | ItemValue.List _ => "List"

mutual
/-- `impl From<AttributeValue> for ItemValue`.  `none` models the
`_ => panic!(..)` arm for the unhandled variants; a panic while converting
a child of `L`/`M` propagates.  `N` payloads that fail to parse become the
`i64` default `0` (`parse().unwrap_or_default()`). -/
def itemValueOfAttr : AttributeValue → Option ItemValue
  | AttributeValue.Bool b => some (ItemValue.Bool b)
  | AttributeValue.N n => some (ItemValue.Number ((parseI64 n).getD 0))
  | AttributeValue.S s => some (ItemValue.String s)
  | AttributeValue.Null _ => some ItemValue.Null
  | AttributeValue.L l =>
    match itemValueOfAttrList l with
    | some vs => some (ItemValue.List vs)
    | none => none
  | AttributeValue.M m =>
    match itemValueOfAttrPairs m with
    | some kvs => some (ItemValue.Map kvs)
    | none => none
  | _ => none

def itemValueOfAttrList : List AttributeValue → Option (List ItemValue)
  | [] => some []
  | a :: rest =>
    match itemValueOfAttr a, itemValueOfAttrList rest with
    | some v, some vs => some (v :: vs)
    | _, _ => none

def itemValueOfAttrPairs : List (String × AttributeValue) → Option (List (String × ItemValue))
  | [] => some []
  | (k, a) :: rest =>
    match itemValueOfAttr a, itemValueOfAttrPairs rest with
    | some v, some vs => some ((k, v) :: vs)
    | _, _ => none
end

/-- `struct KV { key, value }`. -/
structure KV where
  key : String
  value : ItemValue

/-- `struct TableRow { data: Vec<KV> }`. -/
structure TableRow where
  data : List KV

/-- `struct NebTable { rows, headers }`. -/
structure NebTable where
  rows : List TableRow
  headers : List String

/-- `impl Default for NebTable` (derived): empty rows and headers. -/
def NebTable.default : NebTable := ⟨[], []⟩

/-- `enum ActiveView { None, TableList, TableData }`. -/
inductive ActiveView where
  | None
  | TableList
  | TableData
  deriving DecidableEq

/-- The view-model fields of `struct App`.  The Dynamo client handle, the
endpoint string and the `io_tx` channel sender are omitted: they carry no
view state (dispatching on the channel is modelled by the event returned
from `tableSelected`).  `tables`/`items` are the `selected()` indices of
the `ListState`/`TableState`. -/
structure App where
  tables : Option Nat
  table_list : List String
  items : Option Nat
  active : ActiveView
  selected_table : NebTable

/-- `App::new`: list cursor at `Some(0)`, table cursor unset, empty list,
active pane `TableList`, default (empty) selected table. -/
def initialApp : App :=
  { tables := some 0
    table_list := []
    items := none
    active := ActiveView.TableList
    selected_table := NebTable.default }

/-- `App::load_tables`: replace the table-name list. -/
def loadTables (s : App) (tables : List String) : App :=
  { s with table_list := tables }

/-- `App::select_table`: replace the displayed table. -/
def selectTable (s : App) (t : NebTable) : App :=
  { s with selected_table := t }

/-- `App::move_down`.  List pane: wrap to `0` only when the cursor is
already `≥` the list length, otherwise increment.  Data pane: wrap to `1`
only when the cursor is already `≥` the row count, otherwise increment. -/
def moveDown (s : App) : App :=
  match s.active with
  | ActiveView.TableList =>
    match s.tables with
    | some selected =>
      if selected ≥ s.table_list.length then { s with tables := some 0 }
      else { s with tables := some (selected + 1) }
    | none => s
  | ActiveView.TableData =>
    match s.items with
    | some selected =>
      if selected ≥ s.selected_table.rows.length then { s with items := some 1 }
      else { s with items := some (selected + 1) }
    | none => s
  | ActiveView.None => s

/-- `App::move_up`.  When the cursor is `0` the source selects
`len() - 1`; with `len() = 0` that `usize` subtraction underflows (panic
in debug, wrap to `2^64 - 1` in release), modelled here as `none`. -/
def moveUp (s : App) : Option App :=
  match s.active with
  | ActiveView.TableList =>
    match s.tables with
    | some selected =>
      if selected > 0 then some { s with tables := some (selected - 1) }
      else if s.table_list.length = 0 then none
      else some { s with tables := some (s.table_list.length - 1) }
    | none => some s
  | ActiveView.TableData =>
    match s.items with
    | some selected =>
      if selected > 0 then some { s with items := some (selected - 1) }
      else if s.selected_table.rows.length = 0 then none
      else some { s with items := some (s.selected_table.rows.length - 1) }
    | none => some s
  | ActiveView.None => some s

/-- `enum UIEvent`. -/
inductive UIEvent where
  | RefreshDynamoTableList (tables : List String)
  | LoadTable (name : String)
  | DisplayTable (table : NebTable)

/-- `App::table_selected`: when the list cursor is in range, dispatch
`LoadTable` for the highlighted name; the state itself is returned
untouched (dispatch only sends on the channel). -/
def tableSelected (s : App) : App × Option UIEvent :=
  match s.tables with
  | some selected =>
    if h : selected < s.table_list.length then
      (s, some (UIEvent.LoadTable (s.table_list.get ⟨selected, h⟩)))
    else (s, none)
  | none => (s, none)

/-- `App::toggle_active_pane`: `TableList → TableData` (initialising the
row cursor to `0` if unset), `TableData → TableList`, and the `_` arm
(`None`) goes to `TableList`. -/
def toggleActivePane (s : App) : App :=
  match s.active with
  | ActiveView.TableList =>
    let s' := { s with active := ActiveView.TableData }
    if s'.items = none then { s' with items := some 0 } else s'
  | ActiveView.TableData => { s with active := ActiveView.TableList }
  | ActiveView.None => { s with active := ActiveView.TableList }

/-- The key codes distinguished by `run_ui`'s match on `event.code`:
`Char(c)`, `Enter` and `Tab` are handled, every other crossterm variant
(represented here by a few of them) falls into the `_ => {}` arm. -/
inductive KeyCode where
  | char (c : Char)
  | enter
  | tab
  | esc
  | backspace
  | up
  | down
  | left
  | right
  deriving DecidableEq

/-- Outcome of one key event in `run_ui`'s main loop: the state after the
handler ran, the `UIEvent` request it dispatched on the channel (if any),
and whether the loop breaks (quit). -/
structure StepOut where
  app : App
  request : Option UIEvent
  quit : Bool

/-- The key arm of `run_ui`'s `tokio::select!`: `'q'` breaks the loop,
`'j'`/`'k'` move the cursor, `Enter` runs `table_selected`, `Tab` toggles
the pane, and every other key does nothing.  `none` models the panic
inside `move_up`. -/
def handleKey (s : App) (k : KeyCode) : Option StepOut :=
  match k with
  | KeyCode.char c =>
    if c = 'q' then some ⟨s, none, true⟩
    else if c = 'j' then some ⟨moveDown s, none, false⟩
    else if c = 'k' then (moveUp s).map (fun s' => ⟨s', none, false⟩)
    else some ⟨s, none, false⟩
  | KeyCode.enter => some ⟨(tableSelected s).1, (tableSelected s).2, false⟩
  | KeyCode.tab => some ⟨toggleActivePane s, none, false⟩
  | _ => some ⟨s, none, false⟩

/-- The events the main loop consumes: key presses and ticks from the
input task, and the fetch results (`RefreshDynamoTableList` routed to
`load_tables`, `DisplayTable` routed to `select_table`). -/
inductive Ev where
  | key (k : KeyCode)
  | listLoaded (tables : List String)
  | tableLoaded (t : NebTable)
  | tick

/-- One main-loop iteration's effect on the application state for one
event; `none` models a panic (the `move_up` underflow).  A `Tick` mutates
nothing. -/
def stepEv (s : App) (e : Ev) : Option App :=
  match e with
  | Ev.key k => (handleKey s k).map StepOut.app
  | Ev.listLoaded tables => some (loadTables s tables)
  | Ev.tableLoaded t => some (selectTable s t)
  | Ev.tick => some s

/-- States reachable from `App::new`'s state by key and fetch-result
events. -/
inductive Reachable : App → Prop where
  | init : Reachable initialApp
  | step {s s' : App} {e : Ev} : Reachable s → stepEv s e = some s' → Reachable s'

/-- A scan record as delivered by the SDK: a map from attribute names to
attribute values (`HashMap<String, AttributeValue>`), modelled as an
association list. -/
def DynamoRecord : Type := List (String × AttributeValue)

/-- Scan failure (`SdkError`), abstracted to its message. -/
def ScanErr : Type := String

/-- The part of the SDK's `ScanOutput` that `load_table` reads: the
optional `items` field. -/
structure ScanOutput where
  items : Option (List DynamoRecord)

/-- `impl From<&HashMap<String, AttributeValue>> for TableRow`: convert
each `(key, value)` pair, propagating a conversion panic (`none`). -/
def tableRowOfRecord (r : DynamoRecord) : Option TableRow :=
  match itemValueOfAttrPairs r with
  | some kvs => some ⟨kvs.map (fun p => ⟨p.1, p.2⟩)⟩
  | none => none

/-- `items.into_iter().map(|i| i.into()).collect()`: convert every record,
propagating a conversion panic. -/
def scanRows : List DynamoRecord → Option (List TableRow)
  | [] => some []
  | r :: rest =>
    match tableRowOfRecord r, scanRows rest with
    | some row, some rows => some (row :: rows)
    | _, _ => none

/-- `load_table`, as a function of the scan result it received.  The outer
`Option` is a conversion panic; the inner `Option UIEvent` is the event it
sends on the channel (`none` = nothing emitted).  A scan `Err` is
propagated by `?` with nothing emitted; an absent `items` field skips the
`if let`; a present `items` list — even an empty one — builds a `NebTable`
(headers from the first record, or empty) and sends `DisplayTable`. -/
def loadTable (res : Except ScanErr ScanOutput) : Option (Option UIEvent) :=
  match res with
  | Except.error _ => some none
  | Except.ok out =>
    match out.items with
    | none => some none
    | some items =>
      let headers : List String :=
        match items.head? with
        | some first => first.map Prod.fst
        | none => []
      match scanRows items with
      | none => none
      | some rows => some (some (UIEvent.DisplayTable ⟨rows, headers⟩))

/-- Concrete state for the C1 scenario: table-name list `["a","b","c"]`,
list cursor at the last index `2`, list pane active. -/
def scenarioC1App : App :=
  { tables := some 2
    table_list := ["a", "b", "c"]
    items := none
    active := ActiveView.TableList
    selected_table := NebTable.default }

/-- Concrete state with `ActiveView::None`, the one `App` pane value on
which a double toggle does not return: constructible for the `App` type
though never produced by the program's own transitions. -/
def noneViewApp : App :=
  { tables := some 0
    table_list := []
    items := none
    active := ActiveView.None
    selected_table := NebTable.default }

/-- Concrete state for the C7 scenario: table list `["users"]`, cursor on
it, list pane active. -/
def usersApp : App :=
  { tables := some 0
    table_list := ["users"]
    items := none
    active := ActiveView.TableList
    selected_table := NebTable.default }

/-- Concrete state for the C6 witness: data pane active, row cursor `0`,
no rows. -/
def dataPaneApp : App :=
  { tables := some 0
    table_list := []
    items := some 0
    active := ActiveView.TableData
    selected_table := NebTable.default }

/-- C1 (counterexample): in the state with table-name list
`["a","b","c"]`, list pane active and cursor at the last index `2`, one
down press moves the cursor to `3` (one past the end), not to `0` as the
claim's scenario states. -/
theorem c1_counterexample :
    scenarioC1App.active = ActiveView.TableList ∧
    scenarioC1App.tables = some 2 ∧
    scenarioC1App.table_list = ["a", "b", "c"] ∧
    (moveDown scenarioC1App).tables = some 3 ∧
    (moveDown scenarioC1App).tables ≠ some 0 :=
  ⟨rfl, rfl, rfl, rfl, by decide⟩

/-- C1 (amended): with the list pane active and the list cursor set, a
down press increments the cursor whenever it is strictly below the list
length — including from the last index, which yields the length itself —
and wraps to `0` exactly when the cursor is already at or past the list
length.  For `["a","b","c"]` starting at index 2, successive presses give
3, then 0, then 1. -/
theorem c1_down_wrap (s : App) (c : Nat)
    (hv : s.active = ActiveView.TableList) (hc : s.tables = some c) :
    (c < s.table_list.length → (moveDown s).tables = some (c + 1)) ∧
    (s.table_list.length ≤ c → (moveDown s).tables = some 0) := by
  refine ⟨fun h => ?_, fun h => ?_⟩
  · simp only [moveDown, hv, hc]
    rw [if_neg (by omega)]
  · simp only [moveDown, hv, hc]
    rw [if_pos h]

/-- C1 witness: the amended theorem at the scenario state — a down press
from index 2 in the 3-element list yields cursor 3. -/
theorem c1_down_wrap_witness : (moveDown scenarioC1App).tables = some 3 :=
  (c1_down_wrap scenarioC1App 2 rfl rfl).1 (by decide)

/-- C2 (counterexample): the initial state is reachable (empty event
sequence), its table-list cursor is set to `0`, yet the table-name list is
empty, so the index is not strictly below the list length. -/
theorem c2_counterexample :
    Reachable initialApp ∧ initialApp.tables = some 0 ∧
    ¬ 0 < initialApp.table_list.length :=
  ⟨Reachable.init, rfl, by decide⟩

/-- C2 (amended): the strict bound is not an invariant (the initial state
already violates it, and a down press from the last index sets the cursor
to the list length); what the down-press transition does guarantee is that
the table-list cursor stays set and at most the list length. -/
theorem c2_down_bound (s : App) (c : Nat)
    (hv : s.active = ActiveView.TableList) (hc : s.tables = some c) :
    ∃ c', (moveDown s).tables = some c' ∧ c' ≤ s.table_list.length := by
  by_cases h : c ≥ s.table_list.length
  · refine ⟨0, ?_, Nat.zero_le _⟩
    simp only [moveDown, hv, hc]
    rw [if_pos h]
  · refine ⟨c + 1, ?_, by omega⟩
    simp only [moveDown, hv, hc]
    rw [if_neg h]

/-- C2 witness: the amended bound at the initial state. -/
theorem c2_down_bound_witness :
    ∃ c', (moveDown initialApp).tables = some c' ∧
      c' ≤ initialApp.table_list.length :=
  c2_down_bound initialApp 0 rfl rfl

/-- C3 (code evaluated at the failing input): in the initial state the
list pane is active, the cursor is `Some(0)` and the table-name list is
empty; `move_up` reaches `self.table_list.len() - 1` with `len() = 0`,
the `usize` underflow modelled by `none`.  The guard the claim requires is
absent. -/
theorem c3_moveUp_underflow :
    initialApp.active = ActiveView.TableList ∧
    initialApp.tables = some 0 ∧
    initialApp.table_list.length = 0 ∧
    moveUp initialApp = none :=
  ⟨rfl, rfl, rfl, rfl⟩

/-- C4 (counterexample): a successful scan whose `items` field is present
but empty (zero records) still emits a `DisplayTable` event carrying the
empty table — it does not emit nothing, as the claim states. -/
theorem c4_counterexample :
    loadTable (Except.ok ⟨some []⟩) =
      some (some (UIEvent.DisplayTable ⟨[], []⟩)) ∧
    (some (UIEvent.DisplayTable ⟨[], []⟩) : Option UIEvent) ≠ none :=
  ⟨rfl, by simp⟩

/-- C4 (amended): `load_table` emits nothing exactly on a scan failure or
an absent `items` field; whenever `items` is present and the record
conversion succeeds it emits exactly one `DisplayTable` event, with
headers taken from the first record — and for a present-but-empty `items`
list it still emits one event, carrying the empty table. -/
theorem c4_loadTable :
    (∀ e : ScanErr, loadTable (Except.error e) = some none) ∧
    loadTable (Except.ok ⟨none⟩) = some none ∧
    (∀ (items : List DynamoRecord) (first : DynamoRecord) (rows : List TableRow),
      items.head? = some first → scanRows items = some rows →
      loadTable (Except.ok ⟨some items⟩) =
        some (some (UIEvent.DisplayTable ⟨rows, first.map Prod.fst⟩))) ∧
    loadTable (Except.ok ⟨some []⟩) =
      some (some (UIEvent.DisplayTable ⟨[], []⟩)) := by
  refine ⟨fun e => rfl, rfl, ?_, rfl⟩
  intro items first rows h1 h2
  simp [loadTable, h1, h2]

/-- C4 witness: a one-record scan result emits one `DisplayTable` with the
record's key as header. -/
theorem c4_loadTable_witness :
    loadTable (Except.ok ⟨some [[("id", AttributeValue.S "u1")]]⟩) =
      some (some (UIEvent.DisplayTable
        ⟨[⟨[⟨"id", ItemValue.String "u1"⟩]⟩], ["id"]⟩)) :=
  c4_loadTable.2.2.1 [[("id", AttributeValue.S "u1")]]
    [("id", AttributeValue.S "u1")] [⟨[⟨"id", ItemValue.String "u1"⟩]⟩] rfl rfl

/-- C5: converting each remote scalar and rendering the result reproduces
the canonical text: strings verbatim, booleans as `true`/`false`, null as
the fixed literal `"null"`, and a number whose payload is the canonical
base-10 form of an `i64` verbatim. -/
theorem c5_scalar_roundtrip :
    (∀ s : String, itemValueOfAttr (AttributeValue.S s) = some (ItemValue.String s) ∧
      displayItemValue (ItemValue.String s) = s) ∧
    (∀ b : Bool, itemValueOfAttr (AttributeValue.Bool b) = some (ItemValue.Bool b) ∧
      displayItemValue (ItemValue.Bool b) = (if b then "true" else "false")) ∧
    (∀ flag : Bool, itemValueOfAttr (AttributeValue.Null flag) = some ItemValue.Null) ∧
    displayItemValue ItemValue.Null = "null" ∧
    (∀ (p : String) (k : Int), parseI64 p = some k → p = toString k →
      itemValueOfAttr (AttributeValue.N p) = some (ItemValue.Number k) ∧
      displayItemValue (ItemValue.Number k) = p) := by
  refine ⟨fun s => ⟨rfl, rfl⟩, fun b => ⟨rfl, rfl⟩, fun flag => rfl, rfl, ?_⟩
  intro p k h1 h2
  constructor
  · simp [itemValueOfAttr, h1]
  · simp [displayItemValue, h2]

/-- C5 witness: the number branch at payload `"42"`. -/
theorem c5_scalar_roundtrip_witness :
    itemValueOfAttr (AttributeValue.N "42") = some (ItemValue.Number 42) ∧
    displayItemValue (ItemValue.Number 42) = "42" :=
  c5_scalar_roundtrip.2.2.2.2 "42" 42 rfl rfl

/-- C6: with the data pane active and the row cursor set, a down press
increments the cursor while it is strictly below the row count, and wraps
to index `1` (not `0`) exactly when the cursor is at or past the row
count, i.e. past the last row. -/
theorem c6_data_down (s : App) (c : Nat)
    (hv : s.active = ActiveView.TableData) (hc : s.items = some c) :
    (c < s.selected_table.rows.length → (moveDown s).items = some (c + 1)) ∧
    (s.selected_table.rows.length ≤ c → (moveDown s).items = some 1) := by
  refine ⟨fun h => ?_, fun h => ?_⟩
  · simp only [moveDown, hv, hc]
    rw [if_neg (by omega)]
  · simp only [moveDown, hv, hc]
    rw [if_pos h]

/-- C6 witness: with zero rows and cursor `0` (at/past the last row), a
down press sets the row cursor to `1`. -/
theorem c6_data_down_witness : (moveDown dataPaneApp).items = some 1 :=
  (c6_data_down dataPaneApp 0 rfl rfl).2 (by decide)

/-- C7: with the list pane active and the cursor in range, a select press
dispatches exactly one `LoadTable` request for the highlighted name and
returns the state itself unchanged (pane, cursors, list and table all
equal). -/
theorem c7_select_dispatch (s : App) (i : Nat)
    (_hv : s.active = ActiveView.TableList) (hc : s.tables = some i)
    (hlt : i < s.table_list.length) :
    tableSelected s = (s, some (UIEvent.LoadTable (s.table_list.get ⟨i, hlt⟩))) := by
  simp only [tableSelected, hc]
  rw [dif_pos hlt]

/-- C7 witness: selecting in the state with list `["users"]` and cursor
`0` dispatches exactly `LoadTable "users"` and leaves the state intact. -/
theorem c7_select_dispatch_witness :
    tableSelected usersApp = (usersApp, some (UIEvent.LoadTable "users")) :=
  c7_select_dispatch usersApp 0 rfl rfl (by decide)

/-- C8 (counterexample): from the constructible state whose pane is
`ActiveView.None`, toggling twice ends at `TableData`, not back at
`None`. -/
theorem c8_counterexample :
    noneViewApp.active = ActiveView.None ∧
    (toggleActivePane (toggleActivePane noneViewApp)).active = ActiveView.TableData ∧
    (toggleActivePane (toggleActivePane noneViewApp)).active ≠ noneViewApp.active :=
  ⟨rfl, rfl, by decide⟩

/-- C8 (amended): for every state whose pane is `TableList` or
`TableData` — i.e. every state the program itself produces — toggling the
active pane twice returns `ActiveView` to its original value. -/
theorem c8_toggle_involutive (s : App) (h : s.active ≠ ActiveView.None) :
    (toggleActivePane (toggleActivePane s)).active = s.active := by
  obtain ⟨tb, tl, it, av, st⟩ := s
  cases av with
  | None => exact absurd rfl h
  | TableList => cases it <;> rfl
  | TableData => cases it <;> rfl

/-- C8 witness: double toggle from the initial state (pane `TableList`)
returns to `TableList`. -/
theorem c8_toggle_involutive_witness :
    (toggleActivePane (toggleActivePane initialApp)).active = initialApp.active :=
  c8_toggle_involutive initialApp (by decide)

/-- C9: any key other than `'q'`, `'j'`, `'k'`, `Enter` and `Tab` falls
into the main loop's `_ => {}` arm: the state is returned unchanged, no
request is dispatched, and the loop does not quit. -/
theorem c9_other_keys (s : App) (k : KeyCode)
    (hq : k ≠ KeyCode.char 'q') (hj : k ≠ KeyCode.char 'j')
    (hk : k ≠ KeyCode.char 'k') (he : k ≠ KeyCode.enter) (ht : k ≠ KeyCode.tab) :
    handleKey s k = some ⟨s, none, false⟩ := by
  cases k with
  | char c =>
    have hcq : c ≠ 'q' := fun hh => hq (by rw [hh])
    have hcj : c ≠ 'j' := fun hh => hj (by rw [hh])
    have hck : c ≠ 'k' := fun hh => hk (by rw [hh])
    simp [handleKey, hcq, hcj, hck]
  | enter => exact absurd rfl he
  | tab => exact absurd rfl ht
  | esc => rfl
  | backspace => rfl
  | up => rfl
  | down => rfl
  | left => rfl
  | right => rfl

/-- C9 witness: the Escape key in the initial state changes nothing,
dispatches nothing, and does not quit. -/
theorem c9_other_keys_witness :
    handleKey initialApp KeyCode.esc = some ⟨initialApp, none, false⟩ :=
  c9_other_keys initialApp KeyCode.esc (by decide) (by decide) (by decide)
    (by decide) (by decide)

/-- C10: a `N` (number) attribute whose payload does not parse as an
`i64` converts — without failing — to the integer `0`
(`parse().unwrap_or_default()`), discarding the original text. -/
theorem c10_unparsable_number (p : String) (h : parseI64 p = none) :
    itemValueOfAttr (AttributeValue.N p) = some (ItemValue.Number 0) := by
  simp [itemValueOfAttr, h]

/-- C10 witness: the non-integer payload `"3.14"` converts to the integer
`0`. -/
theorem c10_unparsable_number_witness :
    itemValueOfAttr (AttributeValue.N "3.14") = some (ItemValue.Number 0) :=
  c10_unparsable_number "3.14" rfl

end Nebulous
